import Mathlib

/-!
# Verification of the Food Calorie Scanner orchestration layer (`app.py`)

Shallow embedding of the single-file Streamlit application: the pydantic
data model (`FoodItem`, `NutritionAnalysis`), the response validator
implicit in the structured-output schema, the analysis pipeline
(`analyze_food_image`), the presentation renderer
(`display_nutrition_results`) and the per-interaction script run (`main`).

Numbers: the pydantic fields are Python `float`s; we model their values as
rationals.  Python's `format(x, '.0f')` / `format(x, '.1f')` round the
(binary) float value to the nearest decimal with ties going to the even
digit; on values exactly representable in binary floating point (all
concrete values appearing in the spec's scenarios, which are dyadic
rationals) the rational model below agrees exactly with CPython.

Effects: every `st.*` call that the claims observe is modelled as an
element of an `Effect` list returned next to the new session state, so
"no unhandled fault propagates" is totality of the embedded functions.
-/

/-- Bytes of an image supplied by the camera widget or the file uploader.
Streamlit's `UploadedFile` objects are truthy, so `camera_image or
uploaded_file` in the source selects the first non-`None` of the two. -/
structure Image where
  bytes : List Nat
deriving DecidableEq, Repr

/-- `class FoodItem(BaseModel)` from `app.py` (lines 64-69): all five
fields are declared without defaults, hence required. -/
structure FoodItem where
  name : String
  portion_grams : ℚ
  protein_grams : ℚ
  calories : ℚ
  carbs_grams : ℚ
deriving DecidableEq, Repr

/-- `class NutritionAnalysis(BaseModel)` from `app.py` (lines 71-74). -/
structure NutritionAnalysis where
  food_items : List FoodItem
  total_calories : ℚ
  confidence_level : String
deriving DecidableEq, Repr

/-- A food-item object of the external service's JSON reply, before
schema validation: any declared field may be absent. -/
structure RawFoodItem where
  name : Option String
  portion_grams : Option ℚ
  protein_grams : Option ℚ
  calories : Option ℚ
  carbs_grams : Option ℚ
deriving DecidableEq, Repr

/-- The external service's JSON reply, before schema validation. -/
structure RawNutritionAnalysis where
  food_items : Option (List RawFoodItem)
  total_calories : Option ℚ
  confidence_level : Option String
deriving DecidableEq, Repr

/-- Pydantic validation of one item against the `FoodItem` schema:
succeeds only when every required field is present. -/
def RawFoodItem.validate (r : RawFoodItem) : Option FoodItem :=
  match r.name, r.portion_grams, r.protein_grams, r.calories, r.carbs_grams with
  | some n, some p, some pr, some c, some cb => some ⟨n, p, pr, c, cb⟩
  | _, _, _, _, _ => none

/-- Validation of the item list: every element must validate. -/
def validateItems : List RawFoodItem → Option (List FoodItem)
  | [] => some []
  | r :: rs =>
    match RawFoodItem.validate r, validateItems rs with
    | some f, some fs => some (f :: fs)
    | _, _ => none

/-- Pydantic validation of the whole reply against the
`NutritionAnalysis` schema (the `response_schema` of the
`generate_content` call, `app.py` lines 111-114). -/
def NutritionAnalysis.validate (r : RawNutritionAnalysis) : Option NutritionAnalysis :=
  match r.food_items, r.total_calories, r.confidence_level with
  | some items, some t, some c =>
    match validateItems items with
    | some fs => some ⟨fs, t, c⟩
    | none => none
  | _, _, _ => none

/-- Rounding to the nearest integer with ties to the even integer:
the rounding CPython's float formatting applies for `:.0f`. -/
def roundHalfEven (q : ℚ) : ℤ :=
  if q - ⌊q⌋ < 1 / 2 then ⌊q⌋
  else if (1 : ℚ) / 2 < q - ⌊q⌋ then ⌊q⌋ + 1
  else if ⌊q⌋ % 2 = 0 then ⌊q⌋ else ⌊q⌋ + 1

/-- CPython `format(q, '.0f')`: round half to even, and keep the sign on
a negative value that rounds to zero (`format(-0.4, '.0f') = "-0"`). -/
def formatF0 (q : ℚ) : String :=
  if roundHalfEven q = 0 ∧ q < 0 then "-0" else toString (roundHalfEven q)

/-- CPython `format(q, '.1f')`: one decimal digit, ties to even. -/
def formatF1 (q : ℚ) : String :=
  (if roundHalfEven (10 * q) < 0 ∨ (roundHalfEven (10 * q) = 0 ∧ q < 0)
    then "-" else "")
    ++ toString ((roundHalfEven (10 * q)).natAbs / 10) ++ "."
    ++ toString ((roundHalfEven (10 * q)).natAbs % 10)

/-- One display fragment emitted by `display_nutrition_results`: the
summary banner, the section header, or one per-item card.  Each field
holds the interpolated text of the corresponding f-string piece. -/
inductive Fragment where
  | totalCalories (text : String) (confidenceText : String)
  | sectionTitle (title : String)
  | foodItemCard (name : String) (portionText : String) (caloriesText : String)
      (proteinText : String) (carbsText : String)
deriving DecidableEq, Repr

/-- Whether a fragment is the summary banner. -/
def Fragment.isSummary : Fragment → Bool
  | .totalCalories _ _ => true
  | _ => false

/-- Whether a fragment is a per-item card. -/
def Fragment.isItemCard : Fragment → Bool
  | .foodItemCard _ _ _ _ _ => true
  | _ => false

/-- `display_nutrition_results` (`app.py` lines 123-160): one summary
banner with `{analysis.total_calories:.0f}` and the confidence level,
the "Food Items Detected" subheader, then one card per food item with
`{item.portion_grams:.0f}g`, `{item.calories:.0f}`,
`{item.protein_grams:.1f}g` and `{item.carbs_grams:.1f}g`. -/
def display_nutrition_results (analysis : NutritionAnalysis) : List Fragment :=
  Fragment.totalCalories
      ("🔥 Total Calories: " ++ formatF0 analysis.total_calories ++ " kcal")
      ("Confidence: " ++ analysis.confidence_level)
    :: Fragment.sectionTitle "📋 Food Items Detected"
    :: analysis.food_items.map (fun item =>
        Fragment.foodItemCard item.name
          (formatF0 item.portion_grams ++ "g")
          (formatF0 item.calories)
          (formatF1 item.protein_grams ++ "g")
          (formatF1 item.carbs_grams ++ "g"))

/-- Outcome of the external-service boundary (the `generate_content`
call): either a raw structured reply, or an exception raised anywhere in
the `try` block — network fault, timeout, authentication failure, quota
error, or the pydantic validation error raised when the reply does not
match the schema.  The exception carries only its message, which is all
the handler uses. -/
inductive ServiceOutcome where
  | reply (raw : RawNutritionAnalysis)
  | exn (msg : String)
deriving DecidableEq, Repr

/-- The service call failed: an exception, or a reply the schema
validator rejects.  Both reach the `except` handler of
`analyze_food_image`. -/
def ServiceOutcome.isFailure : ServiceOutcome → Prop
  | .exn _ => True
  | .reply raw => NutritionAnalysis.validate raw = none

instance : DecidablePred ServiceOutcome.isFailure := fun o =>
  match o with
  | .exn _ => isTrue trivial
  | .reply _ => inferInstanceAs (Decidable (_ = _))

/-- Observable `st.*` calls of one script run. -/
inductive Effect where
  | imageShown (img : Image)
  | errorNotice (msg : String)
  | successNotice (msg : String)
  | subheaderShown (title : String)
  | spinnerShown
  | rendered (f : Fragment)
deriving DecidableEq, Repr

/-- `analyze_food_image` (`app.py` lines 81-121): sends `image_bytes`
with the prompt and the schema to the service; any exception is caught,
reported with `st.error`, and turned into `None`; otherwise the parsed
(schema-validated) reply is returned.  The function is total: no fault
escapes it. -/
def analyze_food_image (image_bytes : List Nat) (service : ServiceOutcome) :
    Option NutritionAnalysis × List Effect :=
  match image_bytes, service with
  | _, .exn msg => (none, [Effect.errorNotice ("Error analyzing image: " ++ msg)])
  | _, .reply raw =>
    match NutritionAnalysis.validate raw with
    | some a => (some a, [])
    | none =>
      (none, [Effect.errorNotice ("Error analyzing image: " ++ "validation error")])

/-- Process-wide session state: the single most-recent-analysis slot
(`st.session_state["last_analysis"]`). -/
structure SessionState where
  last_analysis : Option NutritionAnalysis
deriving DecidableEq, Repr

/-- The widget values and the external-service behaviour of one script
run of `main`. -/
structure MainInput where
  camera_image : Option Image
  uploaded_file : Option Image
  analyze_clicked : Bool
  service : ServiceOutcome
deriving DecidableEq, Repr

/-- `image_source = camera_image or uploaded_file` (`app.py` line 202):
Python `or` yields the first truthy operand, and both widgets return a
truthy object or `None`. -/
def image_source (camera_image uploaded_file : Option Image) : Option Image :=
  match camera_image with
  | some img => some img
  | none => uploaded_file

/-- One run of `main` (`app.py` lines 163-251) from the image widgets
onward: display the selected image; on "Analyze Nutrition", run the
pipeline, then either report success, render the results and store them
in the session slot, or report failure leaving the slot alone; when no
image is selected, redisplay the retained last analysis if present. -/
def mainScript (inp : MainInput) (s : SessionState) : SessionState × List Effect :=
  let imgOpt := image_source inp.camera_image inp.uploaded_file
  let (s1, effs1) : SessionState × List Effect :=
    match imgOpt with
    | some img =>
      if inp.analyze_clicked then
        match analyze_food_image img.bytes inp.service with
        | (some a, aeffs) =>
          ({ last_analysis := some a },
            [Effect.subheaderShown "🖼️ Your Food Photo", Effect.imageShown img,
              Effect.spinnerShown]
              ++ aeffs ++ [Effect.successNotice "✅ Analysis complete!"]
              ++ (display_nutrition_results a).map Effect.rendered)
        | (none, aeffs) =>
          (s,
            [Effect.subheaderShown "🖼️ Your Food Photo", Effect.imageShown img,
              Effect.spinnerShown]
              ++ aeffs
              ++ [Effect.errorNotice "❌ Failed to analyze the image. Please try again."])
      else (s, [Effect.subheaderShown "🖼️ Your Food Photo", Effect.imageShown img])
    | none => (s, [])
  match imgOpt with
  | none =>
    match s1.last_analysis with
    | some a =>
      (s1, effs1 ++ [Effect.subheaderShown "📊 Last Analysis"]
        ++ (display_nutrition_results a).map Effect.rendered)
    | none => (s1, effs1)
  | some _ => (s1, effs1)

/-- Raw reply that validation rejects: some required field of the item
is absent. -/
def RawFoodItem.missingField (r : RawFoodItem) : Prop :=
  r.name = none ∨ r.portion_grams = none ∨ r.protein_grams = none ∨
    r.calories = none ∨ r.carbs_grams = none

/-- Raw reply in which some required field of the schema is absent. -/
def RawNutritionAnalysis.missingRequired (r : RawNutritionAnalysis) : Prop :=
  r.food_items = none ∨ r.total_calories = none ∨ r.confidence_level = none ∨
    ∃ items, r.food_items = some items ∧ ∃ it ∈ items, it.missingField

/-- Re-embedding of a validated item into the raw reply shape. -/
def FoodItem.toRaw (f : FoodItem) : RawFoodItem :=
  ⟨some f.name, some f.portion_grams, some f.protein_grams, some f.calories,
    some f.carbs_grams⟩

/-- Re-embedding of a validated analysis into the raw reply shape. -/
def NutritionAnalysis.toRaw (a : NutritionAnalysis) : RawNutritionAnalysis :=
  ⟨some (a.food_items.map FoodItem.toRaw), some a.total_calories,
    some a.confidence_level⟩

lemma RawFoodItem.validate_eq_none_of_missing (r : RawFoodItem)
    (h : r.missingField) : r.validate = none := by
  obtain ⟨n, p, pr, c, cb⟩ := r
  cases n <;> cases p <;> cases pr <;> cases c <;> cases cb <;>
    simp_all [RawFoodItem.validate, RawFoodItem.missingField]

lemma validateItems_eq_none_of_mem (items : List RawFoodItem) (it : RawFoodItem)
    (hmem : it ∈ items) (h : RawFoodItem.validate it = none) :
    validateItems items = none := by
  induction items with
  | nil => simp at hmem
  | cons a as ih =>
    rcases List.mem_cons.1 hmem with rfl | hmem2
    · unfold validateItems
      rw [h]
    · unfold validateItems
      rw [ih hmem2]
      cases RawFoodItem.validate a <;> rfl

lemma RawFoodItem.validate_toRaw (r : RawFoodItem) (f : FoodItem)
    (h : r.validate = some f) : f.toRaw = r := by
  obtain ⟨n, p, pr, c, cb⟩ := r
  cases n <;> cases p <;> cases pr <;> cases c <;> cases cb <;>
    (simp_all [RawFoodItem.validate, FoodItem.toRaw]; try simp_all [← h])

lemma validateItems_toRaw (items : List RawFoodItem) (fs : List FoodItem)
    (h : validateItems items = some fs) : fs.map FoodItem.toRaw = items := by
  induction items generalizing fs with
  | nil =>
    unfold validateItems at h
    simp only [Option.some.injEq] at h
    subst h
    rfl
  | cons r rs ih =>
    unfold validateItems at h
    cases hv : RawFoodItem.validate r with
    | none => rw [hv] at h; exact absurd h (by simp)
    | some f =>
      rw [hv] at h
      cases hrs : validateItems rs with
      | none => rw [hrs] at h; exact absurd h (by simp)
      | some fs2 =>
        rw [hrs] at h
        simp only [Option.some.injEq] at h
        subst h
        simp [ih fs2 hrs, RawFoodItem.validate_toRaw r f hv]

lemma roundHalfEven_close (q : ℚ) : |q - (roundHalfEven q : ℚ)| ≤ 1 / 2 := by
  have h0 : (0 : ℚ) ≤ q - ⌊q⌋ := by
    have := Int.floor_le q
    linarith
  have h1 : q - ⌊q⌋ < 1 := by
    have := Int.lt_floor_add_one q
    linarith
  unfold roundHalfEven
  split
  · rw [abs_le]
    constructor <;> linarith
  · split
    · push_cast
      rw [abs_le]
      constructor <;> linarith
    · have heq : q - ⌊q⌋ = 1 / 2 := le_antisymm (not_lt.1 (by assumption)) (not_lt.1 (by assumption))
      split <;> (rw [abs_le]; push_cast; constructor <;> linarith)

lemma roundHalfEven_tie_even (q : ℚ) (h : q - ⌊q⌋ = 1 / 2) :
    2 ∣ roundHalfEven q := by
  unfold roundHalfEven
  rw [h]
  norm_num
  split <;> omega

lemma formatF0_of_nonneg (q : ℚ) (hq : 0 ≤ q) :
    formatF0 q = toString (roundHalfEven q) := by
  unfold formatF0
  rw [if_neg]
  rintro ⟨-, hlt⟩
  exact absurd hq (not_le.2 hlt)

/-- C3: for every valid `NutritionAnalysis` whose `food_items` is empty,
the renderer produces exactly one summary fragment (with
`total_calories` and `confidence_level`) and zero per-item fragments. -/
theorem empty_items_render_summary_only (a : NutritionAnalysis)
    (h : a.food_items = []) :
    display_nutrition_results a =
      [Fragment.totalCalories
          ("🔥 Total Calories: " ++ formatF0 a.total_calories ++ " kcal")
          ("Confidence: " ++ a.confidence_level),
        Fragment.sectionTitle "📋 Food Items Detected"]
    ∧ (display_nutrition_results a).countP Fragment.isSummary = 1
    ∧ (display_nutrition_results a).countP Fragment.isItemCard = 0 := by
  refine ⟨by simp [display_nutrition_results, h], ?_, ?_⟩ <;>
    simp [display_nutrition_results, h, List.countP_cons, Fragment.isSummary,
      Fragment.isItemCard]

/-- Witness for C3 at a concrete empty analysis. -/
theorem empty_items_render_summary_only_witness :
    (⟨[], 100, "low"⟩ : NutritionAnalysis).food_items = []
    ∧ (display_nutrition_results ⟨[], 100, "low"⟩).countP Fragment.isSummary = 1
    ∧ (display_nutrition_results ⟨[], 100, "low"⟩).countP Fragment.isItemCard = 0 := by
  have h := empty_items_render_summary_only ⟨[], 100, "low"⟩ rfl
  exact ⟨rfl, h.2.1, h.2.2⟩


/-- C6: end-to-end scenario A: the reply
`{food_items: [{name:"Apple", portion_grams:150, protein_grams:0.5,
calories:80, carbs_grams:21}], total_calories:80, confidence_level:"high"}`
validates, and the renderer shows "🔥 Total Calories: 80 kcal",
confidence "high", and exactly one item card "Apple" with "150g", "80"
calories, "0.5g" protein and "21.0g" carbs. -/
theorem scenario_A_render :
    NutritionAnalysis.validate
        ⟨some [⟨some "Apple", some 150, some (1 / 2), some 80, some 21⟩],
          some 80, some "high"⟩ =
      some ⟨[⟨"Apple", 150, 1 / 2, 80, 21⟩], 80, "high"⟩
    ∧ display_nutrition_results ⟨[⟨"Apple", 150, 1 / 2, 80, 21⟩], 80, "high"⟩ =
      [Fragment.totalCalories "🔥 Total Calories: 80 kcal" "Confidence: high",
        Fragment.sectionTitle "📋 Food Items Detected",
        Fragment.foodItemCard "Apple" "150g" "80" "0.5g" "21.0g"] := by
  constructor
  · rfl
  · unfold display_nutrition_results formatF0 formatF1 roundHalfEven
    norm_num
    decide

/-- C4 counterexample: the source formats with CPython `:.0f`, which
rounds half to even, not half up: a total of 80.5 kcal (and an item
with portion 80.5 g and 80.5 kcal) renders as "80", not "81". -/
theorem rounding_half_up_counterexample :
    display_nutrition_results
        ⟨[⟨"Rice", 161 / 2, 1 / 2, 161 / 2, 21⟩], 161 / 2, "high"⟩ =
      [Fragment.totalCalories "🔥 Total Calories: 80 kcal" "Confidence: high",
        Fragment.sectionTitle "📋 Food Items Detected",
        Fragment.foodItemCard "Rice" "80g" "80" "0.5g" "21.0g"]
    ∧ ("🔥 Total Calories: 80 kcal" : String) ≠ "🔥 Total Calories: 81 kcal"
    ∧ ("80g" : String) ≠ "81g" := by
  have h0 : roundHalfEven (161 / 2) = 80 := by
    unfold roundHalfEven
    norm_num
  have h1 : formatF0 (161 / 2) = "80" := by
    rw [formatF0_of_nonneg (161 / 2) (by norm_num), h0]
    decide
  have h2 : formatF1 (1 / 2) = "0.5" := by
    unfold formatF1 roundHalfEven
    norm_num
    decide
  have h3 : formatF1 21 = "21.0" := by
    unfold formatF1 roundHalfEven
    norm_num
    decide
  refine ⟨?_, by decide, by decide⟩
  simp only [display_nutrition_results, h1, h2, h3, List.map_cons, List.map_nil]
  decide

/-- C4 amended: the rendered output rounds `portion_grams`, `calories`
and `total_calories` to whole units with CPython's round-half-to-even
semantics: the shown integer is within one half of the value, and a
value whose fractional part is exactly 0.5 rounds to the even
neighbour (80.5 renders as "80", 81.5 as "82"). -/
theorem rendering_rounds_half_to_even (a : NutritionAnalysis)
    (hq : 0 ≤ a.total_calories)
    (hitems : ∀ it ∈ a.food_items, 0 ≤ it.portion_grams ∧ 0 ≤ it.calories) :
    display_nutrition_results a =
      Fragment.totalCalories
          ("🔥 Total Calories: " ++ toString (roundHalfEven a.total_calories)
            ++ " kcal")
          ("Confidence: " ++ a.confidence_level)
        :: Fragment.sectionTitle "📋 Food Items Detected"
        :: a.food_items.map (fun it =>
            Fragment.foodItemCard it.name
              (toString (roundHalfEven it.portion_grams) ++ "g")
              (toString (roundHalfEven it.calories))
              (formatF1 it.protein_grams ++ "g")
              (formatF1 it.carbs_grams ++ "g"))
    ∧ (∀ x : ℚ, |x - (roundHalfEven x : ℚ)| ≤ 1 / 2)
    ∧ (∀ x : ℚ, x - ⌊x⌋ = 1 / 2 → 2 ∣ roundHalfEven x) := by
  refine ⟨?_, roundHalfEven_close, roundHalfEven_tie_even⟩
  unfold display_nutrition_results
  rw [formatF0_of_nonneg a.total_calories hq]
  refine congrArg _ (congrArg _ ?_)
  exact List.map_congr_left fun it hit => by
    rw [formatF0_of_nonneg it.portion_grams (hitems it hit).1,
      formatF0_of_nonneg it.calories (hitems it hit).2]

/-- Witness for the amended C4 at 80.5 and 81.5. -/
theorem rendering_rounds_half_to_even_witness :
    (2 ∣ roundHalfEven (161 / 2)
      ∧ |(161 / 2 : ℚ) - (roundHalfEven (161 / 2) : ℚ)| ≤ 1 / 2)
    ∧ roundHalfEven (161 / 2) = 80 ∧ roundHalfEven (163 / 2) = 82 := by
  have h := rendering_rounds_half_to_even ⟨[], 161 / 2, "high"⟩ (by norm_num)
    (by simp)
  refine ⟨⟨h.2.2 (161 / 2) (by norm_num), h.2.1 (161 / 2)⟩, ?_, ?_⟩ <;>
    (unfold roundHalfEven; norm_num)

/-- C1: for every external-service failure (exception of any kind, or a
reply the schema validator rejects), `analyze_food_image` returns `none`,
the script run displays an error notice, and no fragment reaches the
renderer; totality of the embedded functions is the absence of an
unhandled fault. -/
theorem external_failure_yields_none (image_bytes : List Nat)
    (svc : ServiceOutcome) (hf : svc.isFailure) (img : Image)
    (upl : Option Image) (s : SessionState) :
    (analyze_food_image image_bytes svc).1 = none
    ∧ (∃ m, Effect.errorNotice m ∈ (mainScript ⟨some img, upl, true, svc⟩ s).2)
    ∧ ∀ f, Effect.rendered f ∉ (mainScript ⟨some img, upl, true, svc⟩ s).2 := by
  cases svc with
  | exn msg =>
    refine ⟨rfl, ⟨"❌ Failed to analyze the image. Please try again.", ?_⟩, ?_⟩ <;>
      simp [mainScript, image_source, analyze_food_image]
  | reply raw =>
    have hv : NutritionAnalysis.validate raw = none := hf
    refine ⟨?_, ⟨"❌ Failed to analyze the image. Please try again.", ?_⟩, ?_⟩ <;>
      simp [mainScript, image_source, analyze_food_image, hv]

/-- Witness for C1 at a concrete timeout exception. -/
theorem external_failure_yields_none_witness :
    (analyze_food_image [] (ServiceOutcome.exn "timeout")).1 = none
    ∧ ∃ m, Effect.errorNotice m ∈
        (mainScript ⟨some ⟨[]⟩, none, true, ServiceOutcome.exn "timeout"⟩
          ⟨none⟩).2 := by
  have h := external_failure_yields_none [] (ServiceOutcome.exn "timeout")
    trivial ⟨[]⟩ none ⟨none⟩
  exact ⟨h.1, h.2.1⟩

/-- C2: every reply payload in which some required field of the schema is
absent is rejected whole by the validator: the result is `none`, never a
partially populated `NutritionAnalysis` or `FoodItem`. -/
theorem missing_required_field_fails_validation (r : RawNutritionAnalysis)
    (h : r.missingRequired) : NutritionAnalysis.validate r = none := by
  obtain ⟨fi, t, c⟩ := r
  rcases h with h | h | h | ⟨items, hitems, it, hmem, hmiss⟩
  · simp only at h
    subst h
    rfl
  · simp only at h
    subst h
    cases fi <;> rfl
  · simp only at h
    subst h
    cases fi <;> cases t <;> rfl
  · simp only at hitems
    subst hitems
    have hnone : validateItems items = none :=
      validateItems_eq_none_of_mem items it hmem
        (RawFoodItem.validate_eq_none_of_missing it hmiss)
    cases t <;> cases c <;> simp [NutritionAnalysis.validate, hnone]

/-- Witness for C2: an item with no `calories` field. -/
theorem missing_required_field_fails_validation_witness :
    NutritionAnalysis.validate
        ⟨some [⟨some "Apple", some 150, some (1 / 2), none, some 21⟩],
          some 80, some "high"⟩ = none := by
  refine missing_required_field_fails_validation _ ?_
  refine Or.inr (Or.inr (Or.inr ⟨_, rfl, _, List.mem_singleton.2 rfl, ?_⟩))
  simp [RawFoodItem.missingField]

/-- C5: the validator returns the typed value unchanged — re-embedding
the validated value recovers the raw reply exactly — and the renderer
shows `total_calories` as-is: the summary banner depends only on
`total_calories` and `confidence_level`, never on the item list, so a
total that differs from the sum of the per-item calories is rendered
without reconciliation. -/
theorem validator_returns_value_unchanged (r : RawNutritionAnalysis)
    (a : NutritionAnalysis) (h : NutritionAnalysis.validate r = some a) :
    a.toRaw = r
    ∧ (display_nutrition_results a).head? =
        some (Fragment.totalCalories
          ("🔥 Total Calories: " ++ formatF0 a.total_calories ++ " kcal")
          ("Confidence: " ++ a.confidence_level))
    ∧ ∀ b : NutritionAnalysis, b.total_calories = a.total_calories →
        b.confidence_level = a.confidence_level →
        (display_nutrition_results b).head? =
          (display_nutrition_results a).head? := by
  obtain ⟨fi, t, c⟩ := r
  cases fi with
  | none => exact absurd h (by simp [NutritionAnalysis.validate])
  | some items =>
    cases t with
    | none => exact absurd h (by simp [NutritionAnalysis.validate])
    | some tv =>
      cases c with
      | none => exact absurd h (by simp [NutritionAnalysis.validate])
      | some cv =>
        simp only [NutritionAnalysis.validate] at h
        cases hv : validateItems items with
        | none =>
          rw [hv] at h
          exact absurd h (by simp)
        | some fs =>
          rw [hv] at h
          simp only [Option.some.injEq] at h
          subst h
          refine ⟨?_, rfl, ?_⟩
          · simp [NutritionAnalysis.toRaw, validateItems_toRaw items fs hv]
          · intro b hb1 hb2
            simp [display_nutrition_results, hb1, hb2]

/-- Witness for C5 at scenario B: two items summing to 450 kcal with a
total of 500; validation is the identity and the renderer shows 500. -/
theorem validator_returns_value_unchanged_witness :
    (⟨[⟨"Pasta", 300, 10, 200, 50⟩, ⟨"Chicken", 150, 30, 250, 0⟩], 500,
        "medium"⟩ : NutritionAnalysis).toRaw =
      ⟨some [⟨some "Pasta", some 300, some 10, some 200, some 50⟩,
          ⟨some "Chicken", some 150, some 30, some 250, some 0⟩],
        some 500, some "medium"⟩
    ∧ (display_nutrition_results
        ⟨[⟨"Pasta", 300, 10, 200, 50⟩, ⟨"Chicken", 150, 30, 250, 0⟩], 500,
          "medium"⟩).head? =
      some (Fragment.totalCalories "🔥 Total Calories: 500 kcal"
        "Confidence: medium")
    ∧ (200 : ℚ) + 250 = 450 ∧ (450 : ℚ) ≠ 500 := by
  have h := validator_returns_value_unchanged
    ⟨some [⟨some "Pasta", some 300, some 10, some 200, some 50⟩,
        ⟨some "Chicken", some 150, some 30, some 250, some 0⟩],
      some 500, some "medium"⟩
    ⟨[⟨"Pasta", 300, 10, 200, 50⟩, ⟨"Chicken", 150, 30, 250, 0⟩], 500,
      "medium"⟩ rfl
  have h500 : formatF0 500 = "500" := by
    rw [formatF0_of_nonneg 500 (by norm_num)]
    have : roundHalfEven 500 = 500 := by
      unfold roundHalfEven
      norm_num
    rw [this]
    decide
  refine ⟨h.1, ?_, by norm_num, by norm_num⟩
  rw [h.2.1]
  simp only [h500]
  decide

lemma analyze_food_image_fst_eq_none (bytes : List Nat) (svc : ServiceOutcome)
    (hf : svc.isFailure) : (analyze_food_image bytes svc).1 = none := by
  cases svc with
  | exn m => rfl
  | reply raw =>
    have hv : NutritionAnalysis.validate raw = none := hf
    simp [analyze_food_image, hv]

/-- C7: a failed analysis leaves the most-recent-analysis session slot
unchanged (the slot is written only on a successful validation), and the
retained previous analysis is redisplayed on a later run with no image
selected, until superseded by a new success. -/
theorem failed_analysis_preserves_last_slot (inp : MainInput)
    (s : SessionState) (hf : inp.service.isFailure) :
    (mainScript inp s).1 = s
    ∧ ∀ a, s.last_analysis = some a → ∀ (b : Bool) (svc : ServiceOutcome),
        (mainScript ⟨none, none, b, svc⟩ s).2 =
          Effect.subheaderShown "📊 Last Analysis"
            :: (display_nutrition_results a).map Effect.rendered := by
  constructor
  · obtain ⟨cam, upl, clicked, svc⟩ := inp
    simp only at hf
    cases cam with
    | some img =>
      cases clicked with
      | true =>
        rcases hA : analyze_food_image img.bytes svc with ⟨o, aeffs⟩
        have ho : o = none := by
          have := analyze_food_image_fst_eq_none img.bytes svc hf
          rw [hA] at this
          exact this
        subst ho
        simp [mainScript, image_source, hA]
      | false => simp [mainScript, image_source]
    | none =>
      cases upl with
      | some img =>
        cases clicked with
        | true =>
          rcases hA : analyze_food_image img.bytes svc with ⟨o, aeffs⟩
          have ho : o = none := by
            have := analyze_food_image_fst_eq_none img.bytes svc hf
            rw [hA] at this
            exact this
          subst ho
          simp [mainScript, image_source, hA]
        | false => simp [mainScript, image_source]
      | none => cases hs : s.last_analysis <;> simp [mainScript, image_source, hs]
  · intro a ha b svc2
    simp [mainScript, image_source, ha]

/-- Witness for C7: an exception with an image selected leaves the slot
holding the previous analysis, which a later no-image run redisplays. -/
theorem failed_analysis_preserves_last_slot_witness :
    (mainScript ⟨some ⟨[0]⟩, none, true, ServiceOutcome.exn "boom"⟩
        ⟨some ⟨[], 100, "low"⟩⟩).1 = ⟨some ⟨[], 100, "low"⟩⟩
    ∧ (mainScript ⟨none, none, false, ServiceOutcome.exn "boom"⟩
        ⟨some ⟨[], 100, "low"⟩⟩).2 =
      Effect.subheaderShown "📊 Last Analysis"
        :: (display_nutrition_results ⟨[], 100, "low"⟩).map Effect.rendered := by
  have h := failed_analysis_preserves_last_slot
    ⟨some ⟨[0]⟩, none, true, ServiceOutcome.exn "boom"⟩
    ⟨some ⟨[], 100, "low"⟩⟩ trivial
  exact ⟨h.1, h.2 ⟨[], 100, "low"⟩ rfl false (ServiceOutcome.exn "boom")⟩

/-- C8: the renderer is a deterministic pure function of its
`NutritionAnalysis` input: its fragments depend only on the field values,
and a run that only redisplays a retained analysis leaves the session
state untouched — rendering has no effect beyond the emitted output. -/
theorem renderer_is_pure_function_of_input (a b : NutritionAnalysis)
    (h1 : a.food_items = b.food_items)
    (h2 : a.total_calories = b.total_calories)
    (h3 : a.confidence_level = b.confidence_level) :
    display_nutrition_results a = display_nutrition_results b
    ∧ ∀ (clicked : Bool) (svc : ServiceOutcome) (s : SessionState),
        (mainScript ⟨none, none, clicked, svc⟩ s).1 = s := by
  constructor
  · obtain ⟨af, t1, c1⟩ := a
    obtain ⟨bf, t2, c2⟩ := b
    simp only at h1 h2 h3
    subst h1
    subst h2
    subst h3
    rfl
  · intro clicked svc s
    cases hs : s.last_analysis <;> simp [mainScript, image_source, hs]

/-- Witness for C8: two renders of the same value coincide and a
redisplay-only run preserves the state. -/
theorem renderer_is_pure_function_of_input_witness :
    display_nutrition_results ⟨[], 1, "high"⟩ =
      display_nutrition_results ⟨[], 1, "high"⟩
    ∧ (mainScript ⟨none, none, false, ServiceOutcome.exn "e"⟩ ⟨none⟩).1 =
      ⟨none⟩ := by
  have h := renderer_is_pure_function_of_input ⟨[], 1, "high"⟩ ⟨[], 1, "high"⟩
    rfl rfl rfl
  exact ⟨h.1, h.2 false (ServiceOutcome.exn "e") ⟨none⟩⟩

/-- C9: with both affordances supplying an image, the camera capture is
the analysis input — the run is unchanged under any replacement of the
uploaded file — and the uploaded file is used only when no capture is
present. -/
theorem camera_precedes_upload (cam : Image) (upl upl2 : Option Image)
    (clicked : Bool) (svc : ServiceOutcome) (s : SessionState) :
    image_source (some cam) upl = some cam
    ∧ image_source none upl = upl
    ∧ mainScript ⟨some cam, upl, clicked, svc⟩ s =
        mainScript ⟨some cam, upl2, clicked, svc⟩ s :=
  ⟨rfl, rfl, rfl⟩

/-- C10: the retained last analysis is redisplayed exactly when no image
is currently selected (neither capture nor upload) and a previous
success is stored; whenever an image is selected — including after a
failed analysis of it — the stored analysis is not rendered. -/
theorem last_analysis_shown_iff_no_image (inp : MainInput) (s : SessionState) :
    Effect.subheaderShown "📊 Last Analysis" ∈ (mainScript inp s).2 ↔
      (image_source inp.camera_image inp.uploaded_file = none
        ∧ s.last_analysis.isSome) := by
  obtain ⟨cam, upl, clicked, svc⟩ := inp
  have hne : ("📊 Last Analysis" : String) ≠ "🖼️ Your Food Photo" := by decide
  have himg : ∀ img : Image, Effect.subheaderShown "📊 Last Analysis" ∉
      (mainScript ⟨some img, upl, clicked, svc⟩ s).2 := by
    intro img
    cases clicked with
    | false => simp [mainScript, image_source, hne]
    | true =>
      cases svc with
      | exn m => simp [mainScript, image_source, analyze_food_image, hne]
      | reply raw =>
        cases hv : NutritionAnalysis.validate raw with
        | none => simp [mainScript, image_source, analyze_food_image, hv, hne]
        | some a => simp [mainScript, image_source, analyze_food_image, hv, hne]
  cases cam with
  | some img =>
    simp only [image_source]
    exact ⟨fun hmem => absurd hmem (himg img), fun hr => absurd hr.1 (by simp)⟩
  | none =>
    cases upl with
    | some img =>
      simp only [image_source]
      exact ⟨fun hmem => absurd hmem (himg img), fun hr => absurd hr.1 (by simp)⟩
    | none =>
      cases hs : s.last_analysis with
      | some a => simp [mainScript, image_source, hs]
      | none => simp [mainScript, image_source, hs]
